import Mathlib

/-!
# iiSU theme preview page: the download handler and the button

A shallow embedding of `src/frontend/src/App.js`.

* The component state is the pair of React state cells `hovering` and
  `downloading` (lines 7–8).
* `handleDownload` (lines 10–27) is an `async` function.  It is embedded as a
  computation in `Dom`, a state-and-exception monad over `World`: a statement
  either returns a value or throws, and the effects made before a throw stay.
  The answers of the browser (how the promise of `fetch` settles, what reading
  the body gives, whether a DOM call throws) are the fields of `Env`.
* For interleavings the same function is cut at its two `await`s into three
  segments, and `step` is the transition function of the page: each event runs
  one segment to its next suspension point, as the event loop does.
* The button of lines 92–106 is `renderButton`.
-/

namespace IISU

/-! ## Data model -/

/-- A thrown JavaScript value, reduced to its message. -/
abbrev Err := String

/-- A `Blob`: the bytes and the media type. -/
structure Blob where
  bytes : List Nat
  type : String
deriving DecidableEq

/-- A `Response` as `handleDownload` can observe it: the HTTP status and what
reading the body to its end as a blob yields (`res.blob()` resolves with a blob
or rejects). -/
structure Response where
  status : Nat
  body : Except Err Blob

/-- The detached `<a>` element made by `document.createElement('a')`: a node
identity and the two properties the handler assigns. -/
structure Anchor where
  id : Nat
  href : String
  download : String
deriving DecidableEq

/-- The calls `handleDownload` makes on the outside world, in the order made.
A synchronous call that throws is not recorded: it did not take place. -/
inductive Effect where
  | setDownloading (b : Bool)
  | fetchGet (url : String)
  | readBlob
  | createObjectURL (blob : Blob) (url : String)
  | createElement (tag : String)
  | setHref (url : String)
  | setDownloadName (name : String)
  | appendChild (href download : String)
  | click (href download : String)
  | remove (href download : String)
  | revokeObjectURL (url : String)
  | consoleError (msg : String) (e : Err)
deriving DecidableEq

/-- Everything the handler reads or writes: the two state cells of the
component, the object URLs that are live, the anchors that are children of
`document.body`, the next free node identity, and the trace of effects. -/
structure World where
  hovering : Bool
  downloading : Bool
  liveURLs : List String
  bodyChildren : List Anchor
  nextNode : Nat
  trace : List Effect
deriving DecidableEq

/-- The state right after the first render: `useState(false)` twice. -/
def World.init : World :=
  { hovering := false, downloading := false, liveURLs := [], bodyChildren := [],
    nextNode := 0, trace := [] }

/-- The answers of the browser during one run of `handleDownload`; each call
is made at most once in a run, so one outcome per call site is enough. -/
structure Env where
  fetch : Except Err Response
  createObjectURL : Except Err String
  createElement : Except Err Unit
  appendChild : Except Err Unit
  click : Except Err Unit
  remove : Except Err Unit
  revokeObjectURL : Except Err Unit

/-! ## The monad of statements -/

/-- A statement: from a world to a value or a thrown error, and the world
after. -/
def Dom (α : Type) : Type := World → Except Err α × World

/-- Sequencing: a throw skips the rest. -/
def Dom.bind {α β : Type} (m : Dom α) (f : α → Dom β) : Dom β := fun w =>
  match m w with
  | (.ok a, w1) => f a w1
  | (.error e, w1) => (.error e, w1)

/-- The `try { body } catch (e) { handler e }` statement. -/
def Dom.tryCatch {α : Type} (body : Dom α) (handler : Err → Dom α) : Dom α := fun w =>
  match body w with
  | (.ok a, w1) => (.ok a, w1)
  | (.error e, w1) => handler e w1

instance : Monad Dom where
  pure a := fun w => (.ok a, w)
  bind := Dom.bind

instance : MonadExcept Err Dom where
  throw e := fun w => (.error e, w)
  tryCatch := Dom.tryCatch

/-- Record an effect at the end of the trace. -/
def World.emit (w : World) (e : Effect) : World :=
  { w with trace := w.trace ++ [e] }

/-! ## The browser calls used by the handler -/

/-- The substitution `${API}` of a template literal: `undefined` prints as the
word. -/
def templ : Option String → String
  | some s => s
  | none => "undefined"

/-- The call `setDownloading(b)`. -/
def setDownloading (b : Bool) : Dom Unit := fun w =>
  (.ok (), { w with downloading := b, trace := w.trace ++ [.setDownloading b] })

/-- The call `setHovering(b)`. -/
def setHovering (b : Bool) (w : World) : World :=
  { w with hovering := b }

/-- The statement `await fetch(url)`: the request is issued, then the promise
settles as the environment says. -/
def fetch (env : Env) (url : String) : Dom Response := fun w =>
  (env.fetch, w.emit (.fetchGet url))

/-- The statement `await res.blob()`. -/
def Response.blob (res : Response) : Dom Blob := fun w =>
  (res.body, w.emit .readBlob)

/-- The call `window.URL.createObjectURL(blob)`: the returned URL becomes live. -/
def createObjectURL (env : Env) (blob : Blob) : Dom String := fun w =>
  match env.createObjectURL with
  | .ok url => (.ok url, { w with liveURLs := url :: w.liveURLs,
                                  trace := w.trace ++ [.createObjectURL blob url] })
  | .error e => (.error e, w)

/-- The call `document.createElement(tag)`: a new detached node. -/
def createElement (env : Env) (tag : String) : Dom Anchor := fun w =>
  match env.createElement with
  | .ok () => (.ok { id := w.nextNode, href := "", download := "" },
               { w with nextNode := w.nextNode + 1, trace := w.trace ++ [.createElement tag] })
  | .error e => (.error e, w)

/-- The assignment `a.href = url`. -/
def setHref (a : Anchor) (url : String) : Dom Anchor := fun w =>
  (.ok { a with href := url }, w.emit (.setHref url))

/-- The assignment `a.download = name`. -/
def setDownloadName (a : Anchor) (name : String) : Dom Anchor := fun w =>
  (.ok { a with download := name }, w.emit (.setDownloadName name))

/-- The call `document.body.appendChild(a)`. -/
def appendChild (env : Env) (a : Anchor) : Dom Unit := fun w =>
  match env.appendChild with
  | .ok () => (.ok (), { w with bodyChildren := w.bodyChildren ++ [a],
                                trace := w.trace ++ [.appendChild a.href a.download] })
  | .error e => (.error e, w)

/-- The call `a.click()`: with a `download` attribute the browser saves the
target of `href` under that name. -/
def click (env : Env) (a : Anchor) : Dom Unit := fun w =>
  match env.click with
  | .ok () => (.ok (), w.emit (.click a.href a.download))
  | .error e => (.error e, w)

/-- The call `a.remove()`: the node leaves its parent. -/
def remove (env : Env) (a : Anchor) : Dom Unit := fun w =>
  match env.remove with
  | .ok () => (.ok (), { w with bodyChildren := w.bodyChildren.filter (fun c => c.id ≠ a.id),
                                trace := w.trace ++ [.remove a.href a.download] })
  | .error e => (.error e, w)

/-- The call `window.URL.revokeObjectURL(url)`: the URL is live no more. -/
def revokeObjectURL (env : Env) (url : String) : Dom Unit := fun w =>
  match env.revokeObjectURL with
  | .ok () => (.ok (), { w with liveURLs := w.liveURLs.filter (fun u => u ≠ url),
                                trace := w.trace ++ [.revokeObjectURL url] })
  | .error e => (.error e, w)

/-- The call `console.error(msg, e)`. -/
def consoleError (msg : String) (e : Err) : Dom Unit := fun w =>
  (.ok (), w.emit (.consoleError msg e))

/-! ## `handleDownload` -/

/-- Lines 10–27 of `App.js`, statement by statement; `api` is the module
constant `API` of line 4. -/
def handleDownload (api : Option String) (env : Env) : Dom Unit := do
  setDownloading true
  try
    let res ← fetch env (templ api ++ "/api/download")
    let blob ← res.blob
    let url ← createObjectURL env blob
    let a ← createElement env "a"
    let a ← setHref a url
    let a ← setDownloadName a "iiSU_White_UI.zip"
    appendChild env a
    click env a
    remove env a
    revokeObjectURL env url
  catch e =>
    consoleError "Download failed" e
  setDownloading false

/-- Lines 13–22: the body of the `try` block on its own. -/
def tryBlock (api : Option String) (env : Env) : Dom Unit := do
  let res ← fetch env (templ api ++ "/api/download")
  let blob ← res.blob
  let url ← createObjectURL env blob
  let a ← createElement env "a"
  let a ← setHref a url
  let a ← setDownloadName a "iiSU_White_UI.zip"
  appendChild env a
  click env a
  remove env a
  revokeObjectURL env url

/-- The environment in which no step fails: the response has the given status
and its body reads as `blob`, `createObjectURL` returns `url`, and no DOM call
throws. -/
def successEnv (status : Nat) (blob : Blob) (url : String) : Env :=
  { fetch := .ok { status := status, body := .ok blob },
    createObjectURL := .ok url,
    createElement := .ok (),
    appendChild := .ok (),
    click := .ok (),
    remove := .ok (),
    revokeObjectURL := .ok () }

/-- The effect is a call of `setDownloading`. -/
def Effect.isSetDownloading : Effect → Bool
  | .setDownloading _ => true
  | _ => false

/-- The effect is a request. -/
def Effect.isFetch : Effect → Bool
  | .fetchGet _ => true
  | _ => false

/-- The effect is a line on the diagnostic channel. -/
def Effect.isLog : Effect → Bool
  | .consoleError _ _ => true
  | _ => false

/-- The effect is a save-file interaction: a click on an anchor. -/
def Effect.isSave : Effect → Bool
  | .click _ _ => true
  | _ => false

/-- Downloads run one after another, each started when the one before has
settled: the world after the last. -/
def downloads (api : Option String) (envs : List Env) (w : World) : World :=
  envs.foldl (fun w env => (handleDownload api env w).2) w

/-! ## The handler cut at its suspension points -/

/-- Lines 15–22: the synchronous statements between the second `await` and the
end of the `try` block. -/
def saveBlob (env : Env) (blob : Blob) : Dom Unit := do
  let url ← createObjectURL env blob
  let a ← createElement env "a"
  let a ← setHref a url
  let a ← setDownloadName a "iiSU_White_UI.zip"
  appendChild env a
  click env a
  remove env a
  revokeObjectURL env url

/-- Lines 23–26: the `catch` block and the statement after it. -/
def failed (e : Err) : Dom Unit := do
  consoleError "Download failed" e
  setDownloading false

/-- Lines 11–13 up to the first suspension: the flag is set and the request
is issued; the value is the URL requested. -/
def handleDownload_start (api : Option String) : Dom String := fun w =>
  match setDownloading true w with
  | (_, w1) => (.ok (templ api ++ "/api/download"),
                w1.emit (.fetchGet (templ api ++ "/api/download")))

/-- The handler resumed when the promise of `fetch` settles with `r`: on a
response it calls `res.blob()` and suspends again (the value is that
response), on a rejection it runs the `catch` block and finishes. -/
def handleDownload_afterFetch (r : Except Err Response) : Dom (Option Response) :=
  match r with
  | .ok res => fun w => (.ok (some res), w.emit .readBlob)
  | .error e => do
      failed e
      pure none

/-- The handler resumed when the promise of `res.blob()` settles with `r`: it
runs to its end. -/
def handleDownload_afterBlob (env : Env) (r : Except Err Blob) : Dom Unit := do
  try
    let blob ← (fun w => (r, w) : Dom Blob)
    saveBlob env blob
  catch e =>
    consoleError "Download failed" e
  setDownloading false

/-! ## The button -/

/-- The attributes and the text of the `<button>` of lines 92–106. -/
structure Button where
  className : String
  testid : String
  disabled : Bool
  label : String
deriving DecidableEq

/-- Lines 92–106: the only element of the page whose rendering reads the
state. -/
def renderButton (hovering downloading : Bool) : Button :=
  { className := "download-btn" ++ (if hovering then " glow" else "")
                   ++ (if downloading then " busy" else ""),
    testid := "download-zip-button",
    disabled := downloading,
    label := if downloading then "Downloading..." else "Download Theme (.zip)" }

/-! ## The page as a transition system -/

/-- A run of `handleDownload` that is suspended at an `await`. -/
inductive Awaiting where
  | fetch (url : String)
  | blob (res : Response)

/-- The page: the world and the runs of the handler that have not finished. -/
structure Page where
  world : World
  pending : List Awaiting

/-- The page after the first render. -/
def Page.init : Page := { world := World.init, pending := [] }

/-- What can happen to the page.  `click` is a click of the user on the
button, which a disabled button does not receive; `dispatch` is a call of the
`onClick` handler that does not go through the `disabled` attribute; the two
`Settles` events resume the `i`-th pending run with the answer of the
environment. -/
inductive Event where
  | mouseEnter
  | mouseLeave
  | click
  | dispatch
  | fetchSettles (i : Nat) (r : Except Err Response)
  | blobSettles (i : Nat) (env : Env)

/-- Start a run of the handler (line 95, `onClick={handleDownload}`). -/
def startDownload (api : Option String) (p : Page) : Page :=
  match handleDownload_start api p.world with
  | (.ok url, w) => { world := w, pending := p.pending ++ [.fetch url] }
  | (.error _, w) => { p with world := w }

/-- One turn of the event loop. -/
def step (api : Option String) (p : Page) : Event → Page
  | .mouseEnter => { p with world := setHovering true p.world }
  | .mouseLeave => { p with world := setHovering false p.world }
  | .click =>
      if (renderButton p.world.hovering p.world.downloading).disabled then p
      else startDownload api p
  | .dispatch => startDownload api p
  | .fetchSettles i r =>
      match p.pending[i]? with
      | some (.fetch _) =>
          match handleDownload_afterFetch r p.world with
          | (.ok (some res), w) => { world := w, pending := p.pending.set i (.blob res) }
          | (_, w) => { world := w, pending := p.pending.eraseIdx i }
      | _ => p
  | .blobSettles i env =>
      match p.pending[i]? with
      | some (.blob res) =>
          { world := (handleDownload_afterBlob env res.body p.world).2,
            pending := p.pending.eraseIdx i }
      | _ => p

/-- The page after a list of events, oldest first. -/
def run (api : Option String) (p : Page) (evs : List Event) : Page :=
  evs.foldl (step api) p

/-- The number of download requests in flight: the runs of the handler whose
attempt has not settled. -/
def inFlight (p : Page) : Nat := p.pending.length

/-- The event starts no run of the handler behind the back of the `disabled`
attribute. -/
def Event.isUser : Event → Bool
  | .dispatch => false
  | _ => true

/-- The two pointer events of lines 96–97. -/
inductive Hover where
  | enter
  | leave
deriving DecidableEq

/-- The page event of a pointer event. -/
def Hover.toEvent : Hover → Event
  | .enter => .mouseEnter
  | .leave => .mouseLeave

/-! ## Predicates used in the statements -/

/-- No event of the list starts the handler behind the `disabled` attribute. -/
def UserOnly (evs : List Event) : Prop :=
  ∀ e ∈ evs, e.isUser = true

instance (evs : List Event) : Decidable (UserOnly evs) :=
  inferInstanceAs (Decidable (∀ e ∈ evs, e.isUser = true))

/-- The invariant of the page under the events of a user. -/
def OneAtATime (p : Page) : Prop :=
  inFlight p = if p.world.downloading then 1 else 0

/-- Every anchor in the document has an identity already given out. -/
def World.NodesKnown (w : World) : Prop :=
  ∀ a ∈ w.bodyChildren, a.id < w.nextNode

instance (w : World) : Decidable w.NodesKnown :=
  inferInstanceAs (Decidable (∀ a ∈ w.bodyChildren, a.id < w.nextNode))

/-- None of the URLs is live: `createObjectURL` returns a URL that is new. -/
def World.Fresh (w : World) (urls : List String) : Prop :=
  ∀ u ∈ urls, u ∉ w.liveURLs

instance (w : World) (urls : List String) : Decidable (w.Fresh urls) :=
  inferInstanceAs (Decidable (∀ u ∈ urls, u ∉ w.liveURLs))

/-- A download in which no step fails: the status of the response, the blob
its body reads as, and the object URL the browser gives. -/
structure Run where
  status : Nat
  blob : Blob
  url : String
deriving DecidableEq

/-- The environment of such a download. -/
def Run.env (r : Run) : Env := successEnv r.status r.blob r.url

/-- The trace of the runs of a list of environments, each taken at the first
render. -/
def tracesOf (api : Option String) (envs : List Env) : List Effect :=
  (envs.map (fun env => (handleDownload api env World.init).2.trace)).flatten

/-! # Theorems -/

/-! ## Evaluating statements -/

theorem bind_run {α β : Type} (m : Dom α) (f : α → Dom β) (w : World) :
    (m >>= f) w = match m w with
      | (.ok a, w1) => f a w1
      | (.error e, w1) => (.error e, w1) := rfl

theorem tryCatch_run {α : Type} (body : Dom α) (handler : Err → Dom α) (w : World) :
    (MonadExcept.tryCatch body handler) w = match body w with
      | (.ok a, w1) => (.ok a, w1)
      | (.error e, w1) => handler e w1 := rfl

theorem pure_run {α : Type} (a : α) (w : World) : (pure a : Dom α) w = (.ok a, w) := rfl

/-- The handler is its `try` block under the `catch`, between the two calls
of `setDownloading`. -/
theorem handleDownload_eq (api : Option String) (env : Env) :
    handleDownload api env = (do
      setDownloading true
      try tryBlock api env
      catch e => consoleError "Download failed" e
      setDownloading false) := rfl

/-- The `try`/`catch` statement of lines 12–25 never throws; its first effect
is the request, it issues no other request and does not touch the flag; it
logs the failure of the `try` block once, and nothing when there is none. -/
theorem guarded_spec (api : Option String) (env : Env) (w : World) :
    ∃ w1 rest,
      (tryCatch (tryBlock api env) (fun e => consoleError "Download failed" e)) w = (.ok (), w1)
      ∧ w1.trace = w.trace ++ .fetchGet (templ api ++ "/api/download") :: rest
      ∧ (∀ x ∈ rest, x.isSetDownloading = false ∧ x.isFetch = false)
      ∧ (∀ e, (tryBlock api env w).1 = .error e →
          rest.filter Effect.isLog = [.consoleError "Download failed" e])
      ∧ ((tryBlock api env w).1 = .ok () → rest.filter Effect.isLog = [])
      ∧ w1.downloading = w.downloading ∧ w1.hovering = w.hovering := by
  obtain ⟨f, cu, ce, ac, cl, rm, rv⟩ := env
  rcases f with e | ⟨st, e | blob⟩
  on_goal 3 => rcases cu with e | url
  on_goal 4 => rcases ce with e | u
  on_goal 5 => rcases ac with e | u
  on_goal 6 => rcases cl with e | u
  on_goal 7 => rcases rm with e | u
  on_goal 8 => rcases rv with e | u
  all_goals
    apply Exists.intro
    apply Exists.intro
    refine And.intro rfl ?_
    simp only [tryBlock, bind_run, tryCatch_run, fetch, Response.blob,
      createObjectURL, createElement, setHref, setDownloadName, appendChild, click, remove,
      revokeObjectURL, consoleError, World.emit, List.append_assoc, List.cons_append,
      List.nil_append]
    refine And.intro rfl ?_
    simp [Effect.isSetDownloading, Effect.isFetch, Effect.isLog]

/-- The whole handler: it returns normally, and its world is that of the
`try`/`catch` statement run after `setDownloading(true)`, with the flag
cleared at the end. -/
theorem handleDownload_run (api : Option String) (env : Env) (w : World) :
    ∃ w1 rest,
      handleDownload api env w = (.ok (), (setDownloading false w1).2)
      ∧ w1.trace = w.trace ++ .setDownloading true
          :: .fetchGet (templ api ++ "/api/download") :: rest
      ∧ (∀ x ∈ rest, x.isSetDownloading = false ∧ x.isFetch = false)
      ∧ (∀ e, (tryBlock api env (setDownloading true w).2).1 = .error e →
          rest.filter Effect.isLog = [.consoleError "Download failed" e])
      ∧ ((tryBlock api env (setDownloading true w).2).1 = .ok () →
          rest.filter Effect.isLog = [])
      ∧ w1.hovering = w.hovering := by
  obtain ⟨w1, rest, h1, h2, h3, h4, h5, -, h7⟩ := guarded_spec api env (setDownloading true w).2
  refine ⟨w1, rest, ?_, ?_, h3, h4, h5, ?_⟩
  · rw [handleDownload_eq]
    simp only [bind_run, setDownloading] at h1 ⊢
    rw [h1]
  · rw [h2]; simp [setDownloading]
  · rw [h7]; rfl

/-- The run in which no step fails, in full. -/
theorem handleDownload_successEnv (api : Option String) (status : Nat) (blob : Blob)
    (url : String) (w : World) :
    handleDownload api (successEnv status blob url) w = (.ok (),
      { hovering := w.hovering,
        downloading := false,
        liveURLs := (url :: w.liveURLs).filter (fun u => u ≠ url),
        bodyChildren := (w.bodyChildren ++
            [Anchor.mk w.nextNode url "iiSU_White_UI.zip"]).filter
              (fun c => c.id ≠ w.nextNode),
        nextNode := w.nextNode + 1,
        trace := w.trace ++
          [.setDownloading true, .fetchGet (templ api ++ "/api/download"), .readBlob,
           .createObjectURL blob url, .createElement "a", .setHref url,
           .setDownloadName "iiSU_White_UI.zip", .appendChild url "iiSU_White_UI.zip",
           .click url "iiSU_White_UI.zip", .remove url "iiSU_White_UI.zip",
           .revokeObjectURL url, .setDownloading false] }) := by
  simp only [handleDownload, successEnv, bind_run, tryCatch_run, setDownloading, fetch,
    Response.blob, createObjectURL, createElement, setHref, setDownloadName, appendChild, click,
    remove, revokeObjectURL, consoleError, World.emit, List.append_assoc, List.cons_append,
    List.nil_append]

/-- Claim C1: whatever the outcome of the attempt, the first effect of
`handleDownload` is `setDownloading(true)`, made before the request is issued
and so before the first suspension; the last effect is `setDownloading(false)`;
no other effect touches the flag, which is therefore true from the invocation
until the attempt settles (also while the handler is suspended on the body)
and false when the handler has finished. -/
theorem handleDownload_flag_first_last (api : Option String) (env : Env) (w : World) :
    (handleDownload_start api w).2.downloading = true
    ∧ (handleDownload_start api w).2.trace
        = w.trace ++ [.setDownloading true, .fetchGet (templ api ++ "/api/download")]
    ∧ (∀ (res : Response) (w1 : World),
        (handleDownload_afterFetch (.ok res) w1).2.downloading = w1.downloading)
    ∧ (∃ mid, (handleDownload api env w).2.trace
          = w.trace ++ .setDownloading true :: .fetchGet (templ api ++ "/api/download")
              :: (mid ++ [.setDownloading false])
        ∧ ∀ x ∈ mid, x.isSetDownloading = false)
    ∧ (handleDownload api env w).2.downloading = false := by
  obtain ⟨w1, rest, hrun, htr, hrest, -, -, -⟩ := handleDownload_run api env w
  refine ⟨rfl, ?_, fun _ _ => rfl, ⟨rest, ?_, fun x hx => (hrest x hx).1⟩, ?_⟩
  · simp [handleDownload_start, setDownloading, World.emit]
  · rw [hrun]; simp [setDownloading, htr]
  · rw [hrun]; rfl

/-- Claim C2: `handleDownload` never fails.  Its result is never an error;
after the one request it issues no other; when the `try` block throws `e`, the log gets
exactly one line, `'Download failed'` with `e`; and when `fetch` rejects the
run is exactly: set the flag, the request, the log line, clear the flag, so no
object URL is created, no anchor is created or clicked, and `downloading` ends
false. -/
theorem handleDownload_never_throws (api : Option String) (env : Env) (w : World) :
    (handleDownload api env w).1 = .ok ()
    ∧ (∃ rest, (handleDownload api env w).2.trace
          = w.trace ++ .setDownloading true :: .fetchGet (templ api ++ "/api/download") :: rest
        ∧ (∀ x ∈ rest, x.isFetch = false)
        ∧ (∀ e, (tryBlock api env (setDownloading true w).2).1 = .error e →
            rest.filter Effect.isLog = [.consoleError "Download failed" e]))
    ∧ (∀ e, env.fetch = .error e →
        handleDownload api env w = (.ok (),
          { w with
            downloading := false,
            trace := w.trace ++ [.setDownloading true,
              .fetchGet (templ api ++ "/api/download"),
              .consoleError "Download failed" e, .setDownloading false] })) := by
  obtain ⟨w1, rest, hrun, htr, hrest, hlog, -, -⟩ := handleDownload_run api env w
  refine ⟨by rw [hrun], ⟨rest ++ [.setDownloading false], ?_, ?_, ?_⟩, ?_⟩
  · rw [hrun]; simp [setDownloading, htr]
  · intro x hx
    rcases List.mem_append.1 hx with h | h
    · exact (hrest x h).2
    · simp only [List.mem_singleton] at h
      subst h; rfl
  · intro e he
    simp [List.filter_append, hlog e he, Effect.isLog]
  · intro e he
    obtain ⟨f, cu, ce, ac, cl, rm, rv⟩ := env
    simp only at he
    subst he
    simp only [handleDownload, bind_run, tryCatch_run, setDownloading, fetch, consoleError,
      World.emit, List.append_assoc, List.cons_append, List.nil_append]

/-- An instance of C2: a rejected request at the first render. -/
theorem handleDownload_never_throws_witness :
    handleDownload (some "https://backend.example")
        { successEnv 200 ⟨[], ""⟩ "" with fetch := .error "TypeError: Failed to fetch" }
        World.init
      = (.ok (),
          { World.init with
            downloading := false,
            trace := World.init.trace ++ [.setDownloading true,
              .fetchGet (templ (some "https://backend.example") ++ "/api/download"),
              .consoleError "Download failed" "TypeError: Failed to fetch",
              .setDownloading false] }) :=
  (handleDownload_never_throws _ _ _).2.2 "TypeError: Failed to fetch" rfl

/-- Claim C3, where the code departs from it: in a browser where `a.remove()`
throws (an engine without `ChildNode.remove`), `createObjectURL` has returned `blob:iisu-1`, the handler
returns normally, and yet `revokeObjectURL` was never called: the URL is still
live when the handler has finished, and the anchor is still in the document. -/
theorem revoke_skipped_when_remove_throws :
    (handleDownload (some "https://backend.example")
        { successEnv 200 ⟨[80, 75, 3, 4], "application/zip"⟩ "blob:iisu-1" with
          remove := .error "TypeError: a.remove is not a function" }
        World.init)
      = (.ok (),
          { hovering := false,
            downloading := false,
            liveURLs := ["blob:iisu-1"],
            bodyChildren := [{ id := 0, href := "blob:iisu-1", download := "iiSU_White_UI.zip" }],
            nextNode := 1,
            trace := [.setDownloading true,
              .fetchGet "https://backend.example/api/download", .readBlob,
              .createObjectURL ⟨[80, 75, 3, 4], "application/zip"⟩ "blob:iisu-1",
              .createElement "a", .setHref "blob:iisu-1",
              .setDownloadName "iiSU_White_UI.zip",
              .appendChild "blob:iisu-1" "iiSU_White_UI.zip",
              .click "blob:iisu-1" "iiSU_White_UI.zip",
              .consoleError "Download failed" "TypeError: a.remove is not a function",
              .setDownloading false] }) := by
  rfl

/-- Claim C4: for every origin and every response whose body reads as a blob, when
no step fails the trace of `handleDownload` is exactly: set the flag; one GET
to the origin followed by `/api/download`; read the body; `createObjectURL`
giving `url`; create the anchor and give it `href = url` and
`download = "iiSU_White_UI.zip"`; append it; click it; remove it;
`revokeObjectURL(url)`; clear the flag.  The handler returns normally, and the
anchor it made (the node `w.nextNode`) is not in the document afterwards. -/
theorem handleDownload_success_trace (api : String) (status : Nat) (blob : Blob)
    (url : String) (w : World) :
    (handleDownload (some api) (successEnv status blob url) w).1 = .ok ()
    ∧ (handleDownload (some api) (successEnv status blob url) w).2.trace
        = w.trace ++
          [.setDownloading true, .fetchGet (api ++ "/api/download"), .readBlob,
           .createObjectURL blob url, .createElement "a", .setHref url,
           .setDownloadName "iiSU_White_UI.zip", .appendChild url "iiSU_White_UI.zip",
           .click url "iiSU_White_UI.zip", .remove url "iiSU_White_UI.zip",
           .revokeObjectURL url, .setDownloading false]
    ∧ (∀ c ∈ (handleDownload (some api) (successEnv status blob url) w).2.bodyChildren,
        c.id ≠ w.nextNode)
    ∧ url ∉ (handleDownload (some api) (successEnv status blob url) w).2.liveURLs
    ∧ (handleDownload (some api) (successEnv status blob url) w).2.downloading = false := by
  rw [handleDownload_successEnv]
  refine ⟨rfl, rfl, ?_, ?_, rfl⟩
  · intro c hc
    simpa using (List.mem_filter.1 hc).2
  · intro h
    simpa using (List.mem_filter.1 h).2

/-- Claim C5: the status of the response plays no part.  Two responses with the
same body and any two status codes give the same run in every environment;
and with a status such as 404 or 500, when the body reads and no step fails,
the run is the run of a 200: the save-file interaction with the name
`iiSU_White_UI.zip` takes place and nothing is logged. -/
theorem handleDownload_ignores_status (api : Option String) (env : Env) (w : World)
    (s1 s2 : Nat) (body : Except Err Blob) (blob : Blob) (url : String) :
    handleDownload api { env with fetch := .ok { status := s1, body := body } } w
      = handleDownload api { env with fetch := .ok { status := s2, body := body } } w
    ∧ handleDownload api (successEnv s1 blob url) w
        = handleDownload api (successEnv 200 blob url) w
    ∧ (∃ t, (handleDownload api (successEnv s1 blob url) w).2.trace = w.trace ++ t
        ∧ t.filter Effect.isSave = [.click url "iiSU_White_UI.zip"]
        ∧ t.filter Effect.isLog = []) := by
  refine ⟨rfl, ?_, ?_⟩
  · rw [handleDownload_successEnv, handleDownload_successEnv]
  · rw [handleDownload_successEnv]
    exact ⟨_, rfl, by simp [Effect.isSave], by simp [Effect.isLog]⟩

/-! ## The segments and the whole handler -/

/-- A `try` block under the `catch` of line 23, followed by
`setDownloading(false)`: it returns normally with the flag false. -/
theorem guard_then_clear (body : Dom Unit) (w : World) :
    ((do
        try body
        catch e => consoleError "Download failed" e
        setDownloading false : Dom Unit) w).1 = .ok ()
    ∧ ((do
        try body
        catch e => consoleError "Download failed" e
        setDownloading false : Dom Unit) w).2.downloading = false := by
  simp only [bind_run, tryCatch_run]
  rcases h : body w with ⟨e | a, w1⟩ <;> simp [consoleError, setDownloading]

/-- The last segment ends with the flag false. -/
theorem afterBlob_clears_flag (env : Env) (r : Except Err Blob) (w : World) :
    (handleDownload_afterBlob env r w).2.downloading = false :=
  (guard_then_clear _ w).2

/-- The three segments run one after the other, with no other event in
between, are the handler: the request is started, the promise of `fetch`
settles, the body is read. -/
theorem run_sequential (api : Option String) (env : Env) (w : World) :
    run api { world := w, pending := [] }
        [.dispatch, .fetchSettles 0 env.fetch, .blobSettles 0 env]
      = { world := (handleDownload api env w).2, pending := [] } := by
  obtain ⟨f, cu, ce, ac, cl, rm, rv⟩ := env
  rcases f with e | ⟨st, e | blob⟩
  on_goal 3 => rcases cu with e | url
  on_goal 4 => rcases ce with e | u
  on_goal 5 => rcases ac with e | u
  on_goal 6 => rcases cl with e | u
  on_goal 7 => rcases rm with e | u
  on_goal 8 => rcases rv with e | u
  all_goals
    simp [run, step, startDownload, handleDownload_start, handleDownload_afterFetch,
      handleDownload_afterBlob, failed, saveBlob, handleDownload, bind_run, tryCatch_run,
      pure_run, setDownloading, fetch, Response.blob, createObjectURL, createElement, setHref,
      setDownloadName, appendChild, click, remove, revokeObjectURL, consoleError, World.emit]

/-! ## One request at a time -/

theorem oneAtATime_step (api : Option String) (p : Page) (e : Event)
    (he : e.isUser = true) (h : OneAtATime p) : OneAtATime (step api p e) := by
  unfold OneAtATime inFlight at *
  cases e with
  | mouseEnter => simpa [step, setHovering] using h
  | mouseLeave => simpa [step, setHovering] using h
  | dispatch => simp [Event.isUser] at he
  | click =>
      cases hd : p.world.downloading with
      | true => simpa [step, renderButton, hd] using h
      | false =>
          simp [hd] at h
          simp [step, renderButton, hd, startDownload, handleDownload_start, setDownloading,
            World.emit, h]
  | fetchSettles i r =>
      cases hget : p.pending[i]? with
      | none => simpa [step, hget] using h
      | some a =>
          cases a with
          | blob res => simpa [step, hget] using h
          | fetch url =>
              obtain ⟨hi, -⟩ := List.getElem?_eq_some.1 hget
              have hd : p.world.downloading = true := by
                cases hd : p.world.downloading with
                | true => rfl
                | false =>
                    have h0 : p.pending.length = 0 := by simpa [hd] using h
                    omega
              have hlen : p.pending.length = 1 := by simpa [hd] using h
              obtain rfl : i = 0 := by omega
              cases r with
              | ok res =>
                  simp [step, hget, handleDownload_afterFetch, World.emit, hd, hlen]
              | error err =>
                  simp [step, hget, handleDownload_afterFetch, failed, bind_run, pure_run,
                    consoleError, setDownloading, World.emit, List.length_eraseIdx, hlen]
  | blobSettles i env =>
      cases hget : p.pending[i]? with
      | none => simpa [step, hget] using h
      | some a =>
          cases a with
          | fetch url => simpa [step, hget] using h
          | blob res =>
              obtain ⟨hi, -⟩ := List.getElem?_eq_some.1 hget
              have hlen : p.pending.length = 1 := by
                cases hd : p.world.downloading with
                | true => simpa [hd] using h
                | false =>
                    have h0 : p.pending.length = 0 := by simpa [hd] using h
                    omega
              obtain rfl : i = 0 := by omega
              simp [step, hget, afterBlob_clears_flag, List.length_eraseIdx, hlen]

theorem oneAtATime_run (api : Option String) (evs : List Event) :
    ∀ p : Page, OneAtATime p → UserOnly evs → OneAtATime (run api p evs) := by
  induction evs with
  | nil => intro p h _; exact h
  | cons e es ih =>
      intro p h hu
      exact ih (step api p e)
        (oneAtATime_step api p e (hu e (List.mem_cons_self e es)) h)
        (fun x hx => hu x (List.mem_cons_of_mem e hx))

/-- Claim C6: in every state the page reaches from its first render through the
events of a user (pointer events, clicks on the button, which a disabled
button does not receive, and the settling of pending promises), the number of
requests in flight is 1 when `downloading` is true and 0 when it is false.  So
at most one request is in flight, `downloading` is true exactly while one is,
and a click while busy changes nothing. -/
theorem inFlight_one_iff_downloading (api : Option String) (evs : List Event)
    (huser : UserOnly evs) :
    inFlight (run api Page.init evs)
        = (if (run api Page.init evs).world.downloading then 1 else 0)
    ∧ inFlight (run api Page.init evs) ≤ 1
    ∧ ((run api Page.init evs).world.downloading = true
        ↔ 0 < inFlight (run api Page.init evs))
    ∧ ((run api Page.init evs).world.downloading = true →
        step api (run api Page.init evs) .click = run api Page.init evs) := by
  have h : OneAtATime (run api Page.init evs) :=
    oneAtATime_run api evs Page.init (by simp [OneAtATime, inFlight, Page.init, World.init]) huser
  unfold OneAtATime at h
  refine ⟨h, ?_, ?_, ?_⟩
  · rw [h]; split <;> simp
  · rw [h]; cases (run api Page.init evs).world.downloading <;> simp
  · intro hd
    simp [step, renderButton, hd]

/-- An instance of C6: a click, the pointer entering, a second click while
busy, and the response arriving. -/
theorem inFlight_one_iff_downloading_witness :
    UserOnly [.click, .mouseEnter, .click,
        .fetchSettles 0 (.ok ⟨200, .ok ⟨[80, 75], "application/zip"⟩⟩)]
    ∧ inFlight (run (some "https://backend.example") Page.init
        [.click, .mouseEnter, .click,
          .fetchSettles 0 (.ok ⟨200, .ok ⟨[80, 75], "application/zip"⟩⟩)]) ≤ 1 :=
  ⟨by simp [UserOnly, Event.isUser],
    (inFlight_one_iff_downloading (some "https://backend.example")
      [.click, .mouseEnter, .click,
        .fetchSettles 0 (.ok ⟨200, .ok ⟨[80, 75], "application/zip"⟩⟩)]
      (by simp [UserOnly, Event.isUser])).2.1⟩

/-! ## Pointer events and the button -/

theorem hover_run (api : Option String) (evs : List Hover) :
    ∀ p : Page,
      (run api p (evs.map Hover.toEvent)).world.hovering
          = (match evs.getLast? with
              | some .enter => true
              | some .leave => false
              | none => p.world.hovering)
      ∧ (run api p (evs.map Hover.toEvent)).world.downloading = p.world.downloading
      ∧ (run api p (evs.map Hover.toEvent)).pending = p.pending := by
  induction evs with
  | nil => intro p; exact ⟨rfl, rfl, rfl⟩
  | cons e es ih =>
      intro p
      obtain ⟨h1, h2, h3⟩ := ih (step api p (Hover.toEvent e))
      have hrun : run api p ((e :: es).map Hover.toEvent)
          = run api (step api p (Hover.toEvent e)) (es.map Hover.toEvent) := rfl
      rw [hrun, h1, h2, h3]
      refine ⟨?_, ?_, ?_⟩
      · cases es with
        | nil => cases e <;> rfl
        | cons e1 es1 =>
            rw [List.getLast?_cons_cons]
            cases h : (e1 :: es1).getLast? with
            | none => simp at h
            | some d => cases d <;> rfl
      · cases e <;> rfl
      · cases e <;> rfl

/-- Claim C7: after any list of pointer-enter and pointer-leave events from the
first render, `hovering` is true if the last event is an enter, false if it is
a leave, and false for the empty list.  From any state these events leave
`downloading` as it was.  The class of the button is `download-btn`, then
` glow` if hovering, then ` busy` if downloading, and the class is the only
part of the button that depends on `hovering`. -/
theorem hovering_follows_last_event (api : Option String) (evs : List Hover) :
    (run api Page.init (evs.map Hover.toEvent)).world.hovering
        = (match evs.getLast? with
            | some .enter => true
            | some .leave => false
            | none => false)
    ∧ (∀ p : Page, (run api p (evs.map Hover.toEvent)).world.downloading = p.world.downloading)
    ∧ (∀ h d : Bool, (renderButton h d).className
        = "download-btn" ++ (if h then " glow" else "") ++ (if d then " busy" else ""))
    ∧ (∀ h d : Bool, renderButton h d
        = { renderButton false d with className := (renderButton h d).className }) :=
  ⟨(hover_run api evs Page.init).1, fun p => (hover_run api evs p).2.1,
    fun _ _ => rfl, fun _ _ => rfl⟩

/-- Claim C8: whatever `hovering` is, the button is disabled exactly when
`downloading` is true, and its label is `Downloading...` when `downloading` is
true and `Download Theme (.zip)` when it is false; a busy page has a disabled
button. -/
theorem button_disabled_and_label (hovering downloading : Bool) :
    (renderButton hovering downloading).disabled = downloading
    ∧ (renderButton hovering downloading).label
        = (if downloading then "Downloading..." else "Download Theme (.zip)")
    ∧ (renderButton hovering true).disabled = true
    ∧ (renderButton hovering true).label = "Downloading..."
    ∧ (renderButton hovering false).label = "Download Theme (.zip)" :=
  ⟨rfl, rfl, rfl, rfl, rfl⟩

/-! ## Downloads one after another -/

/-- A download in which no step fails, started on an idle page whose nodes are
known and where `url` is new, changes nothing but the trace and the next node
identity; what it adds to the trace is what it adds at the first render. -/
theorem success_restores (api : Option String) (status : Nat) (blob : Blob) (url : String)
    (w : World) (hidle : w.downloading = false)
    (hnodes : w.NodesKnown) (hfresh : url ∉ w.liveURLs) :
    (handleDownload api (successEnv status blob url) w).2
      = { w with
          nextNode := w.nextNode + 1,
          trace := w.trace
            ++ (handleDownload api (successEnv status blob url) World.init).2.trace } := by
  rw [handleDownload_successEnv, handleDownload_successEnv]
  have h1 : (url :: w.liveURLs).filter (fun u => u ≠ url) = w.liveURLs := by
    rw [List.filter_cons_of_neg (by simp)]
    exact List.filter_eq_self.2 (fun u hu => by
      have : u ≠ url := fun h => hfresh (h ▸ hu)
      simpa using this)
  have h2 : (w.bodyChildren ++ [Anchor.mk w.nextNode url "iiSU_White_UI.zip"]).filter
      (fun c => c.id ≠ w.nextNode) = w.bodyChildren := by
    rw [List.filter_append, List.filter_cons_of_neg (by simp)]
    simp only [List.filter_nil, List.append_nil]
    exact List.filter_eq_self.2 (fun a ha => by
      have := hnodes a ha
      have : a.id ≠ w.nextNode := by omega
      simpa using this)
  simp only [h1, h2, World.init, List.nil_append]
  cases w
  simp_all

theorem tracesOf_cons (api : Option String) (env : Env) (envs : List Env) :
    tracesOf api (env :: envs)
      = (handleDownload api env World.init).2.trace ++ tracesOf api envs := rfl

theorem downloads_success (api : Option String) (runs : List Run) :
    ∀ w : World, w.downloading = false → w.NodesKnown → w.Fresh (runs.map Run.url) →
      downloads api (runs.map Run.env) w
        = { w with
            nextNode := w.nextNode + runs.length,
            trace := w.trace ++ tracesOf api (runs.map Run.env) } := by
  induction runs with
  | nil => intro w _ _ _; simp [downloads, tracesOf]
  | cons r rs ih =>
      intro w hidle hnodes hfresh
      have hstep := success_restores api r.status r.blob r.url w hidle hnodes
        (hfresh r.url (by simp))
      have hrun : downloads api ((r :: rs).map Run.env) w
          = downloads api (rs.map Run.env) (handleDownload api r.env w).2 := rfl
      rw [hrun, Run.env, hstep, ih
        { w with
          nextNode := w.nextNode + 1,
          trace := w.trace
            ++ (handleDownload api (successEnv r.status r.blob r.url) World.init).2.trace }
        hidle (fun a ha => Nat.lt_succ_of_lt (hnodes a ha))
        (fun u hu => hfresh u (by
          rw [List.map_cons]
          exact List.mem_cons_of_mem _ hu))]
      simp [tracesOf_cons, Run.env, Nat.add_comm, Nat.add_left_comm]

theorem tracesOf_success (api : Option String) (runs : List Run) :
    (tracesOf api (runs.map Run.env)).filter Effect.isSave
        = runs.map (fun r => Effect.click r.url "iiSU_White_UI.zip")
    ∧ (tracesOf api (runs.map Run.env)).filter Effect.isFetch
        = List.replicate runs.length (Effect.fetchGet (templ api ++ "/api/download")) := by
  induction runs with
  | nil => exact ⟨rfl, rfl⟩
  | cons r rs ih =>
      obtain ⟨h1, h2⟩ := ih
      rw [List.map_cons, tracesOf_cons, List.filter_append, List.filter_append, h1, h2,
        Run.env, handleDownload_successEnv]
      exact ⟨rfl, rfl⟩

/-- Claim C9: `n` downloads in which no step fails, run one after another from
an idle page (each object URL new, the nodes of the document known), trigger
exactly `n` save-file interactions, each under the name `iiSU_White_UI.zip`,
and issue `n` requests, each the same GET.  After each of them `hovering`,
`downloading`, the live object URLs and the anchors in the document are what
they were before, and the trace added by the `k`-th download is the trace the
same download gives at the first render: it does not depend on `k` or on the
downloads before it. -/
theorem repeated_downloads_independent (api : Option String) (runs : List Run) (w : World)
    (hidle : w.downloading = false) (hnodes : w.NodesKnown)
    (hfresh : w.Fresh (runs.map Run.url)) :
    (∀ k : Nat,
      (downloads api ((runs.take k).map Run.env) w).hovering = w.hovering
      ∧ (downloads api ((runs.take k).map Run.env) w).downloading = w.downloading
      ∧ (downloads api ((runs.take k).map Run.env) w).liveURLs = w.liveURLs
      ∧ (downloads api ((runs.take k).map Run.env) w).bodyChildren = w.bodyChildren)
    ∧ (downloads api (runs.map Run.env) w).trace
        = w.trace ++ tracesOf api (runs.map Run.env)
    ∧ (tracesOf api (runs.map Run.env)).filter Effect.isSave
        = runs.map (fun r => Effect.click r.url "iiSU_White_UI.zip")
    ∧ (tracesOf api (runs.map Run.env)).filter Effect.isFetch
        = List.replicate runs.length (Effect.fetchGet (templ api ++ "/api/download")) := by
  refine ⟨fun k => ?_, ?_, (tracesOf_success api runs).1, (tracesOf_success api runs).2⟩
  · rw [downloads_success api (runs.take k) w hidle hnodes
      (fun u hu => hfresh u (by
        obtain ⟨r, hr, rfl⟩ := List.mem_map.1 hu
        exact List.mem_map_of_mem _ (List.mem_of_mem_take hr)))]
    exact ⟨rfl, rfl, rfl, rfl⟩
  · rw [downloads_success api runs w hidle hnodes hfresh]

/-- An instance of C9: two downloads from the first render. -/
theorem repeated_downloads_independent_witness :
    World.init.downloading = false
    ∧ World.init.NodesKnown
    ∧ World.init.Fresh ([Run.mk 200 ⟨[80, 75], "application/zip"⟩ "blob:1",
        Run.mk 404 ⟨[80, 75], "application/zip"⟩ "blob:2"].map Run.url)
    ∧ (tracesOf (some "https://backend.example")
          ([Run.mk 200 ⟨[80, 75], "application/zip"⟩ "blob:1",
            Run.mk 404 ⟨[80, 75], "application/zip"⟩ "blob:2"].map Run.env)).filter
          Effect.isSave
        = [Run.mk 200 ⟨[80, 75], "application/zip"⟩ "blob:1",
            Run.mk 404 ⟨[80, 75], "application/zip"⟩ "blob:2"].map
            (fun r => Effect.click r.url "iiSU_White_UI.zip") :=
  ⟨rfl, by simp [World.NodesKnown, World.init], by simp [World.Fresh, World.init],
    (repeated_downloads_independent (some "https://backend.example")
      [Run.mk 200 ⟨[80, 75], "application/zip"⟩ "blob:1",
        Run.mk 404 ⟨[80, 75], "application/zip"⟩ "blob:2"] World.init rfl
      (by simp [World.NodesKnown, World.init]) (by simp [World.Fresh, World.init])).2.2.1⟩

/-! ## Overlapping requests -/

/-- Claim C10: `handleDownload` does not look at `downloading`: called while the
flag is already true it sets the flag and issues a new GET all the same, and a
call that does not go through the `disabled` attribute adds a request in
flight whatever the state.  So a click followed by such a call, before the
first request settles, reaches a state with two requests in flight. -/
theorem overlapping_requests_reachable (api : Option String) :
    (∀ (env : Env) (w : World), ∃ rest,
        (handleDownload api env { w with downloading := true }).2.trace
          = w.trace ++ .setDownloading true :: .fetchGet (templ api ++ "/api/download") :: rest)
    ∧ (∀ p : Page, inFlight (step api p .dispatch) = inFlight p + 1
        ∧ (step api p .dispatch).world.trace
            = p.world.trace ++ [.setDownloading true, .fetchGet (templ api ++ "/api/download")])
    ∧ (run api Page.init [.click]).world.downloading = true
    ∧ inFlight (run api Page.init [.click, .dispatch]) = 2
    ∧ (run api Page.init [.click, .dispatch]).world.trace
        = [.setDownloading true, .fetchGet (templ api ++ "/api/download"),
           .setDownloading true, .fetchGet (templ api ++ "/api/download")] := by
  refine ⟨fun env w => ?_, fun p => ?_, rfl, rfl, rfl⟩
  · obtain ⟨w1, rest, hrun, htr, -⟩ := handleDownload_run api env { w with downloading := true }
    exact ⟨rest ++ [.setDownloading false], by rw [hrun]; simp [setDownloading, htr]⟩
  · simp [step, startDownload, handleDownload_start, setDownloading, World.emit, inFlight]

end IISU
